import Mathlib

/-!
Shallow embedding of `src/main.py` (ffmpeg-batch-convert): the color-profile
classifier, the filter-plan / command builder, the per-file job driver and the
batch statistics loop, together with theorems settling the specification
claims about them.

External effects (the `ffprobe` metadata inspector, the `ffmpeg` encoder
process, `stat` calls on the filesystem) are modelled by explicit outcome
values threaded into the embedded functions; the pure logic (string matching,
rule order, command construction, counter updates, exception handling
structure) is translated directly from the Python source.
-/

/-- Python `b.isPrefixOf a`-style check on char lists, written out explicitly:
`isPre pat s` is true iff `pat` is an initial segment of `s`. -/
def isPre : List Char → List Char → Bool
  | [], _ => true
  | _ :: _, [] => false
  | a :: s, b :: t => a == b && isPre s t

/-- Does `pat` occur as a contiguous segment of `s`? -/
def containsAux (pat : List Char) : List Char → Bool
  | [] => pat.isEmpty
  | c :: t => isPre pat (c :: t) || containsAux pat t

/-- Python's substring operator `pat in s` on strings. -/
def strContains (s pat : String) : Bool :=
  containsAux pat.toList s.toList

/-- Python's `str.lower()` (the metadata strings compared in
`detect_color_profile` are ASCII, where the two agree). -/
def lowerStr (s : String) : String :=
  String.mk (s.toList.map Char.toLower)

/-- The `VideoInfo` dataclass of `src/main.py` (lines 17-25): duration in seconds,
the three color metadata strings with the `"unknown"` sentinel default,
resolution, and codec name. Duration (a Python float) is modelled as `Rat`. -/
structure VideoInfo where
  duration : Rat := 0
  color_space : String := "unknown"
  color_primaries : String := "unknown"
  color_transfer : String := "unknown"
  width : Nat := 0
  height : Nat := 0
  codec_name : String := "unknown"
  deriving DecidableEq, Repr

/-- Converter configuration from `VideoConverter.__init__` (lines 38-43). -/
structure VideoConverter where
  input_dir : String := "."
  output_dir : Option String := none
  output_suffix : String := "_REC709"
  custom_lut_file : Option String := none
  deriving DecidableEq, Repr

/-- Field `self.dlogm_lut` (line 46). -/
def dlogm_lut : String := "luts/DJI_DLogM_to_Rec709.cube"

/-- Field `self.hlg_lut` (line 47). -/
def hlg_lut : String := "luts/iPhone_2020_to_709_33.cube"

/-- First condition of `detect_color_profile` (lines 118-119): HLG. -/
def hlg_rule (v : VideoInfo) : Bool :=
  strContains (lowerStr v.color_transfer) "arib-std-b67" ||
    strContains (lowerStr v.color_transfer) "hlg" ||
    (strContains (lowerStr v.color_primaries) "bt2020" &&
      strContains (lowerStr v.color_transfer) "arib-std-b67")

/-- Second condition of `detect_color_profile` (lines 123-124): DLOG-M. -/
def dlogm_rule (v : VideoInfo) : Bool :=
  strContains (lowerStr v.color_space) "dlogm" ||
    strContains (lowerStr v.color_transfer) "dlogm" ||
    strContains (lowerStr v.color_space) "d-log" ||
    strContains (lowerStr v.color_transfer) "d-log" ||
    (strContains (lowerStr v.color_primaries) "bt709" &&
      strContains (lowerStr v.color_transfer) "unknown" &&
      (["h264", "h265", "hevc"].contains (lowerStr v.codec_name)))

/-- Third condition of `detect_color_profile` (line 128): standard REC709. -/
def rec709_rule (v : VideoInfo) : Bool :=
  strContains (lowerStr v.color_space) "bt709" ||
    strContains (lowerStr v.color_primaries) "bt709" ||
    strContains (lowerStr v.color_transfer) "bt709" ||
    strContains (lowerStr v.color_transfer) "srgb"

/-- Function `detect_color_profile` (lines 111-131): ordered rule dispatch, first match
wins, falling through to the `"unknown"` tag. -/
def detect_color_profile (v : VideoInfo) : String :=
  if hlg_rule v then "hlg"
  else if dlogm_rule v then "dlogm"
  else if rec709_rule v then "rec709"
  else "unknown"

/-- Function `build_ffmpeg_command` (lines 133-182). The custom LUT, when configured,
is used unconditionally; otherwise the LUT (or the no-op `scale` filter for
rec709) is selected from the detected profile, with the DLOG-M LUT as the
fallback for an unknown profile. The returned argv always carries the fixed
rec709 color-tag and encoder settings around the single varying `-vf` value. -/
def build_ffmpeg_command (c : VideoConverter) (input_path output_path : String)
    (color_profile : String) : List String :=
  let video_filter :=
    match c.custom_lut_file with
    | some lut_file => "lut3d=\x27" ++ lut_file ++ "\x27"
    | none =>
      if color_profile == "dlogm" then "lut3d=\x27" ++ dlogm_lut ++ "\x27"
      else if color_profile == "hlg" then "lut3d=\x27" ++ hlg_lut ++ "\x27"
      else if color_profile == "rec709" then "scale"
      else "lut3d=\x27" ++ dlogm_lut ++ "\x27"
  ["ffmpeg",
   "-hwaccel", "videotoolbox",
   "-i", input_path,
   "-vf", video_filter,
   "-c:v", "hevc_videotoolbox",
   "-pix_fmt", "yuv420p10le",
   "-b:v", "20M",
   "-maxrate", "25M",
   "-bufsize", "25M",
   "-c:a", "copy",
   "-tag:v", "hvc1",
   "-color_primaries", "bt709",
   "-color_trc", "bt709",
   "-colorspace", "bt709",
   "-movflags", "+faststart",
   "-progress", "pipe:1",
   "-nostats",
   "-y",
   output_path]

/-- One entry of the probe's `streams` array, with the fields read by
`get_video_info` (lines 92-104); a missing optional key is `none` and is
replaced by the defaults of the Python `dict.get` calls. -/
structure StreamRecord where
  codec_type : String := "audio"
  color_space : Option String := none
  color_primaries : Option String := none
  color_trc : Option String := none
  width : Option Nat := none
  height : Option Nat := none
  codec_name : Option String := none
  deriving DecidableEq, Repr

/-- Outcome of the external `ffprobe` invocation (lines 89-91): the binary may
be absent (Python raises `FileNotFoundError`), exit non-zero
(`CalledProcessError`, since `check=True`), print non-JSON output
(`JSONDecodeError`), or deliver a parsed document with a format duration and a
list of stream records. -/
inductive ProbeResult where
  | absent
  | nonzeroExit
  | malformed
  | parsed (duration : Rat) (streams : List StreamRecord)
  deriving DecidableEq, Repr

/-- A raised Python exception, as relevant to control flow here. -/
inductive PyError where
  | fileNotFound
  | statError
  | launchError
  | monitorError
  deriving DecidableEq, Repr

/-- Function `get_video_info` (lines 87-109). The `try` block catches only
`CalledProcessError` and `JSONDecodeError`, returning the all-default
`VideoInfo()`; an absent `ffprobe` binary raises `FileNotFoundError`, which
escapes (modelled as `Except.error`). On a parsed document, the first stream
whose `codec_type` is `"video"` populates the record with per-key defaults;
with no video stream the all-default `VideoInfo()` is returned. -/
def get_video_info (pr : ProbeResult) : Except PyError VideoInfo :=
  match pr with
  | .absent => .error .fileNotFound
  | .nonzeroExit => .ok {}
  | .malformed => .ok {}
  | .parsed dur streams =>
    match streams.find? (fun s => s.codec_type == "video") with
    | some vs =>
      .ok { duration := dur,
            color_space := vs.color_space.getD "unknown",
            color_primaries := vs.color_primaries.getD "unknown",
            color_transfer := vs.color_trc.getD "unknown",
            width := vs.width.getD 0,
            height := vs.height.getD 0,
            codec_name := vs.codec_name.getD "unknown" }
    | none => .ok {}

/-- Outcome of the `subprocess.Popen` encoder invocation and its monitoring
loop inside `convert_video` (lines 210-229): launching may raise, reading the
progress stream may raise, or the process exits with a code. -/
inductive ProcOutcome where
  | launchFail
  | monitorFail
  | exited (code : Int)
  deriving DecidableEq, Repr

/-- External world of one `convert_video` call: the `ffprobe` outcome of its
internal `get_video_info` call (line 206) and the encoder process outcome. -/
structure JobWorld where
  probe : ProbeResult
  proc : ProcOutcome
  deriving DecidableEq, Repr

/-- Function `convert_video` (lines 202-237). The whole body sits in a `try` whose
handlers return `False`, so an exception from the internal probe call, from
launching the process, or from the monitoring loop all yield `False`; when the
process runs to exit, the result is `returncode == 0`. -/
def convert_video (c : VideoConverter) (input_path output_path color_profile : String)
    (w : JobWorld) : Bool :=
  let _cmd := build_ffmpeg_command c input_path output_path color_profile
  match get_video_info w.probe with
  | .error _ => false
  | .ok _video_info =>
    match w.proc with
    | .launchFail => false
    | .monitorFail => false
    | .exited code => decide (code = 0)

/-- Control reaches the `subprocess.Popen` call of `convert_video` (line 210)
exactly when the probe call just before it (line 206) did not raise. -/
def encoder_launched (w : JobWorld) : Bool :=
  (get_video_info w.probe).isOk

/-- An input path as used by `process_file`: parent directory, stem, and
extension (with its leading dot, as in `pathlib.Path.suffix`). -/
structure InputPath where
  dir : String
  stem : String
  ext : String
  deriving DecidableEq, Repr

/-- Python `str(input_path)`. -/
def input_path_str (p : InputPath) : String :=
  p.dir ++ "/" ++ p.stem ++ p.ext

/-- Output path construction of `process_file` (lines 240-241):
`(self.output_dir or input_path.parent) / f"{input_path.stem}{self.output_suffix}.mp4"`. -/
def build_output_path (c : VideoConverter) (p : InputPath) : String :=
  (c.output_dir.getD p.dir) ++ "/" ++ p.stem ++ c.output_suffix ++ ".mp4"

/-- The filesystem / external-process world of one `process_file` call:
whether the target output path already exists before the job, the input
`stat` result (`none` when it raises), the probe outcome of the
`get_video_info` call at line 245, the world of the inner `convert_video`
call, and the output `stat` result at line 262 (`none` when it raises). -/
structure FileWorld where
  outputExists : Bool
  inputSize : Option Nat
  probe : ProbeResult
  conv : JobWorld
  outputSize : Option Nat
  deriving DecidableEq, Repr

/-- The mutable `self.stats` dictionary (lines 49-52), without the
non-counted `start_time` field. -/
structure Stats where
  successful : Nat := 0
  failed : Nat := 0
  input_size : Nat := 0
  output_size : Nat := 0
  deriving DecidableEq, Repr

/-- The `self.stats` value set in `__init__`: all counters zero. -/
def stats0 : Stats := {}

/-- Result of one `process_file` call: its Boolean return value, the updated
stats, and whether the encoder process launch was reached (instrumentation for
the skip/idempotency claims; the Python code has no such flag because it
never checks for an existing output). -/
structure JobResult where
  ok : Bool
  stats : Stats
  launched : Bool
  deriving DecidableEq, Repr

/-- Function `process_file` (lines 239-282). The output path is built unconditionally
(no existence check); inside the `try`, the input is stat-ed and probed, the
profile detected, and `convert_video` called; on success the output is
stat-ed and the success counters and accumulators updated; on a `False`
return, or on any exception (input stat failure, probe `FileNotFoundError`,
output stat failure), `failed` is incremented and `False` returned. -/
def process_file (c : VideoConverter) (p : InputPath) (w : FileWorld) (st : Stats) :
    JobResult :=
  match w.inputSize with
  | none =>
    { ok := false, stats := { st with failed := st.failed + 1 }, launched := false }
  | some input_size =>
    match get_video_info w.probe with
    | .error _ =>
      { ok := false, stats := { st with failed := st.failed + 1 }, launched := false }
    | .ok video_info =>
      if convert_video c (input_path_str p) (build_output_path c p)
          (detect_color_profile video_info) w.conv then
        match w.outputSize with
        | none =>
          { ok := false, stats := { st with failed := st.failed + 1 },
            launched := encoder_launched w.conv }
        | some output_size =>
          { ok := true,
            stats := { st with
              successful := st.successful + 1,
              input_size := st.input_size + input_size,
              output_size := st.output_size + output_size },
            launched := encoder_launched w.conv }
      else
        { ok := false, stats := { st with failed := st.failed + 1 },
          launched := encoder_launched w.conv }

/-- The sequential batch loop of `run` (lines 330-331): fold `process_file`
over the discovered files, threading the stats. Each job carries its own
external world. -/
def run_batch (c : VideoConverter) (jobs : List (InputPath × FileWorld)) (st : Stats) :
    Stats :=
  match jobs with
  | [] => st
  | j :: rest => run_batch c rest (process_file c j.1 j.2 st).stats

/-- The default converter configuration (`VideoConverter()` defaults). -/
def conv0 : VideoConverter := {}

/-- A converter configured with a custom LUT override. -/
def convCustom : VideoConverter := { custom_lut_file := some "custom.cube" }

/-- Concrete input file `./clip.mov`. -/
def pMov : InputPath := { dir := ".", stem := "clip", ext := ".mov" }

/-- A healthy video stream record: h264 with rec709 tags. -/
def sRec709 : StreamRecord :=
  { codec_type := "video", color_space := some "bt709",
    color_primaries := some "bt709", color_trc := some "bt709",
    width := some 1920, height := some 1080, codec_name := some "h264" }

/-- A fully healthy per-file world in which the output already exists. -/
def wExists : FileWorld :=
  { outputExists := true, inputSize := some 1000,
    probe := .parsed 10 [sRec709],
    conv := { probe := .parsed 10 [sRec709], proc := .exited 0 },
    outputSize := some 500 }

/-- A per-file world in which the `ffprobe` binary is absent. -/
def wAbsent : FileWorld :=
  { outputExists := false, inputSize := some 1000,
    probe := .absent,
    conv := { probe := .absent, proc := .exited 0 },
    outputSize := some 500 }

/-- The output path as the spec sentence behind claim C4 describes it:
`{outputDir or inputDir}/{stem}{suffix}.{ext}`, keeping the input file's own
extension. Stated for comparison with `build_output_path`, which is the
translation of the source. -/
def build_output_path_spec (c : VideoConverter) (p : InputPath) : String :=
  (c.output_dir.getD p.dir) ++ "/" ++ p.stem ++ c.output_suffix ++ p.ext

/-- Metadata satisfying both the HLG rule (transfer contains `hlg`) and the
DLogM rule (color space contains `d-log`). -/
def vBoth : VideoInfo := { color_space := "d-log", color_transfer := "hlg" }

/-- Metadata of a typical DJI clip: bt709 primaries, unknown transfer, hevc. -/
def vDji : VideoInfo :=
  { color_primaries := "bt709", color_transfer := "unknown", codec_name := "hevc" }

/-- A conversion world whose encoder process exits with code 0. -/
def wExit0 : JobWorld := { probe := .parsed 0 [], proc := .exited 0 }

/-- A conversion world whose encoder process fails to launch. -/
def wLaunch : JobWorld := { probe := .parsed 0 [], proc := .launchFail }

/-- A conversion world whose progress-monitoring loop raises. -/
def wMoni : JobWorld := { probe := .parsed 0 [], proc := .monitorFail }


/-- Helper: every `process_file` call either returns `True` and increments
exactly the `successful` counter, or returns `False` and increments exactly
the `failed` counter. -/
theorem process_file_cases (c : VideoConverter) (p : InputPath) (w : FileWorld)
    (st : Stats) :
    ((process_file c p w st).ok = true ∧
      (process_file c p w st).stats.successful = st.successful + 1 ∧
      (process_file c p w st).stats.failed = st.failed) ∨
    ((process_file c p w st).ok = false ∧
      (process_file c p w st).stats.successful = st.successful ∧
      (process_file c p w st).stats.failed = st.failed + 1) := by
  unfold process_file
  repeat' split
  all_goals first
    | exact Or.inr ⟨rfl, rfl, rfl⟩
    | exact Or.inl ⟨rfl, rfl, rfl⟩

/-- Helper: the batch fold adds exactly one to `successful + failed` per job. -/
theorem run_batch_sum (c : VideoConverter) :
    ∀ (jobs : List (InputPath × FileWorld)) (st : Stats),
      (run_batch c jobs st).successful + (run_batch c jobs st).failed =
        st.successful + st.failed + jobs.length := by
  intro jobs
  induction jobs with
  | nil => intro st; simp [run_batch]
  | cons j rest ih =>
    intro st
    have h := process_file_cases c j.1 j.2 st
    show (run_batch c rest (process_file c j.1 j.2 st).stats).successful +
        (run_batch c rest (process_file c j.1 j.2 st).stats).failed =
        st.successful + st.failed + (j :: rest).length
    rw [ih]
    rcases h with ⟨_, hs, hf⟩ | ⟨_, hs, hf⟩ <;> rw [hs, hf] <;>
      simp [List.length_cons] <;> omega

/-- C1: the classifier evaluates its rules in the fixed order HLG, DLogM,
Rec709, Unknown with first match winning: every `VideoInfo` satisfying both
the HLG rule and the DLogM rule classifies as `"hlg"`. -/
theorem classify_priority_hlg_over_dlogm (v : VideoInfo)
    (hh : hlg_rule v = true) (_hd : dlogm_rule v = true) :
    detect_color_profile v = "hlg" := by
  simp [detect_color_profile, hh]

/-- Witness for C1: a record with `color_space = "d-log"` and
`color_transfer = "hlg"` satisfies both rules and classifies as HLG. -/
theorem classify_priority_hlg_over_dlogm_witness :
    hlg_rule vBoth = true ∧ dlogm_rule vBoth = true ∧
      detect_color_profile vBoth = "hlg" :=
  ⟨by decide, by decide,
    classify_priority_hlg_over_dlogm vBoth (by decide) (by decide)⟩

/-- C2: when the transfer field matches no HLG marker, the primaries contain
`bt709`, the transfer is the `"unknown"` sentinel and the codec is one of
h264/h265/hevc, the classifier returns `"dlogm"`. -/
theorem classify_dlogm_fallback (v : VideoInfo)
    (h1 : strContains (lowerStr v.color_transfer) "arib-std-b67" = false)
    (h2 : strContains (lowerStr v.color_transfer) "hlg" = false)
    (h3 : strContains (lowerStr v.color_primaries) "bt709" = true)
    (h4 : v.color_transfer = "unknown")
    (h5 : lowerStr v.codec_name = "h264" ∨ lowerStr v.codec_name = "h265" ∨
      lowerStr v.codec_name = "hevc") :
    detect_color_profile v = "dlogm" := by
  have hhlg : hlg_rule v = false := by simp [hlg_rule, h1, h2]
  have hdl : dlogm_rule v = true := by
    simp [dlogm_rule, h3, h4]
    rcases h5 with h | h | h <;> simp [h] <;> exact Or.inr (by decide)
  simp [detect_color_profile, hhlg, hdl]

/-- Witness for C2: primaries `bt709`, transfer `unknown`, codec `hevc`
classifies as DLogM. -/
theorem classify_dlogm_fallback_witness : detect_color_profile vDji = "dlogm" :=
  classify_dlogm_fallback vDji (by decide) (by decide) (by decide) (by decide)
    (Or.inr (Or.inr (by decide)))

/-- C3 counterexample: in a healthy world whose target output path already
exists, `process_file` still reaches the encoder launch — the code performs
no existence check, so the claimed skip does not happen. -/
theorem existing_output_not_skipped_counterexample :
    wExists.outputExists = true ∧
    (process_file conv0 pMov wExists stats0).launched = true := by
  constructor
  · rfl
  · decide

/-- C3 amended: `process_file` never consults whether the output path exists;
its result (return value, stats and encoder invocation) is identical whatever
the value of the output-existence flag, so a re-run over the same directory
re-invokes the encoder (`-y` overwriting the file) instead of skipping. -/
theorem process_file_ignores_existing_output (c : VideoConverter) (p : InputPath)
    (w : FileWorld) (st : Stats) (b : Bool) :
    process_file c p { w with outputExists := b } st = process_file c p w st := rfl

/-- C4 counterexample: for input `./clip.mov` with the default suffix, the
built output path is `./clip_REC709.mp4`, not the spec's
`{dir}/{stem}{suffix}.{ext}` shape `./clip_REC709.mov` keeping the input
extension. -/
theorem output_extension_counterexample :
    build_output_path conv0 pMov = "./clip_REC709.mp4" ∧
    build_output_path_spec conv0 pMov = "./clip_REC709.mov" ∧
    build_output_path conv0 pMov ≠ build_output_path_spec conv0 pMov := by
  refine ⟨rfl, rfl, ?_⟩
  decide

/-- C4 amended: the output path is
`{outputDir or inputDir}/{stem}{suffix}.mp4` — the extension is always
`.mp4` and the input file's extension never influences the result. -/
theorem output_path_always_mp4 (c : VideoConverter) (p : InputPath) :
    build_output_path c p =
      (c.output_dir.getD p.dir) ++ "/" ++ p.stem ++ c.output_suffix ++ ".mp4" ∧
    ∀ e, build_output_path c { p with ext := e } = build_output_path c p :=
  ⟨rfl, fun _ => rfl⟩

/-- C5 counterexample: when the metadata inspector binary is absent, the probe
does not degrade to the all-unknown record — it raises (`FileNotFoundError`
is not among the caught exception classes), and the file is recorded as a
failed job without ever reaching the encoder. -/
theorem probe_absent_counterexample :
    get_video_info ProbeResult.absent = Except.error PyError.fileNotFound ∧
    (process_file conv0 pMov wAbsent stats0).ok = false ∧
    (process_file conv0 pMov wAbsent stats0).launched = false ∧
    (process_file conv0 pMov wAbsent stats0).stats.failed = 1 := by
  refine ⟨rfl, ?_, ?_, ?_⟩ <;> decide

/-- C5 amended: a non-zero inspector exit or malformed inspector output is
degraded to the all-default `VideoInfo` and the file continues; an absent
inspector binary instead makes the probe raise, and the file is recorded as
failed (the batch itself continues — the error stays inside `process_file`). -/
theorem probe_failure_degrades_or_fails (c : VideoConverter) (p : InputPath)
    (w : FileWorld) (st : Stats) :
    (get_video_info ProbeResult.nonzeroExit = Except.ok {} ∧
      get_video_info ProbeResult.malformed = Except.ok {}) ∧
    (w.probe = ProbeResult.absent →
      (process_file c p w st).ok = false ∧
      (process_file c p w st).launched = false ∧
      (process_file c p w st).stats.failed = st.failed + 1) := by
  refine ⟨⟨rfl, rfl⟩, fun h => ?_⟩
  unfold process_file
  cases w.inputSize with
  | none => exact ⟨rfl, rfl, rfl⟩
  | some isz => rw [h]; exact ⟨rfl, rfl, rfl⟩

/-- Witness for C5 amended: application at the absent-inspector world. -/
theorem probe_failure_degrades_or_fails_witness :
    (process_file conv0 pMov wAbsent stats0).ok = false ∧
    (process_file conv0 pMov wAbsent stats0).stats.failed = stats0.failed + 1 :=
  ⟨((probe_failure_degrades_or_fails conv0 pMov wAbsent stats0).2 rfl).1,
    ((probe_failure_degrades_or_fails conv0 pMov wAbsent stats0).2 rfl).2.2⟩

/-- C6: when an override LUT path is configured, the command's single `-vf`
filter is a `lut3d` stage referencing that path, and the whole command is
independent of the detected profile. -/
theorem override_lut_always_wins (c : VideoConverter) (i o prof lut : String)
    (h : c.custom_lut_file = some lut) :
    (build_ffmpeg_command c i o prof)[6]? =
      some ("lut3d=\x27" ++ lut ++ "\x27") ∧
    ∀ prof2, build_ffmpeg_command c i o prof = build_ffmpeg_command c i o prof2 := by
  constructor
  · simp only [build_ffmpeg_command, h]; rfl
  · intro prof2; simp only [build_ffmpeg_command, h]

/-- Witness for C6: the custom-LUT converter on the rec709 profile. -/
theorem override_lut_always_wins_witness :
    (build_ffmpeg_command convCustom "./clip.mov" "./clip_REC709.mp4" "rec709")[6]? =
      some ("lut3d=\x27" ++ "custom.cube" ++ "\x27") :=
  (override_lut_always_wins convCustom "./clip.mov" "./clip_REC709.mp4" "rec709"
    "custom.cube" rfl).1

/-- C7: for every configuration and every profile tag (the four detected ones
and the custom-LUT case alike), the constructed command ends with the fixed
tail stamping rec709 `-color_primaries` / `-color_trc` / `-colorspace` tags —
the stamped tags never depend on the detected profile. -/
theorem output_tags_always_rec709 (c : VideoConverter) (i o prof : String) :
    (build_ffmpeg_command c i o prof).drop 21 =
      ["-color_primaries", "bt709", "-color_trc", "bt709", "-colorspace", "bt709",
       "-movflags", "+faststart", "-progress", "pipe:1", "-nostats", "-y", o] := rfl

/-- C8: a conversion succeeds exactly when the encoder process exits with code
zero; an exception while launching or monitoring the process yields a failed
conversion; and `process_file` converts every per-job outcome into a recorded
success or failure (it returns a result and bumps exactly one counter — no
error escapes to abort the batch). -/
theorem convert_success_iff_exit_zero (c : VideoConverter) (i o prof : String)
    (w : JobWorld) :
    ((get_video_info w.probe).isOk = true →
      ∀ code, w.proc = ProcOutcome.exited code →
        (convert_video c i o prof w = true ↔ code = 0)) ∧
    (w.proc = ProcOutcome.launchFail → convert_video c i o prof w = false) ∧
    (w.proc = ProcOutcome.monitorFail → convert_video c i o prof w = false) ∧
    (∀ (p : InputPath) (fw : FileWorld) (st : Stats),
      ((process_file c p fw st).ok = true ∧
        (process_file c p fw st).stats.successful = st.successful + 1 ∧
        (process_file c p fw st).stats.failed = st.failed) ∨
      ((process_file c p fw st).ok = false ∧
        (process_file c p fw st).stats.successful = st.successful ∧
        (process_file c p fw st).stats.failed = st.failed + 1)) := by
  refine ⟨?_, ?_, ?_, fun p fw st => process_file_cases c p fw st⟩
  · intro hok code hc
    unfold convert_video
    cases hgi : get_video_info w.probe with
    | error e => rw [hgi] at hok; simp [Except.isOk, Except.toBool] at hok
    | ok vi => rw [hc]; simp
  · intro hc
    unfold convert_video
    cases hgi : get_video_info w.probe with
    | error e => rfl
    | ok vi => rw [hc]
  · intro hc
    unfold convert_video
    cases hgi : get_video_info w.probe with
    | error e => rfl
    | ok vi => rw [hc]

/-- Witness for C8: a zero exit converts successfully, a launch failure and a
monitoring failure yield failed conversions, and a healthy `process_file`
records exactly one success. -/
theorem convert_success_iff_exit_zero_witness :
    convert_video conv0 "a" "b" "unknown" wExit0 = true ∧
    convert_video conv0 "a" "b" "unknown" wLaunch = false ∧
    convert_video conv0 "a" "b" "unknown" wMoni = false ∧
    (((process_file conv0 pMov wExists stats0).ok = true ∧
       (process_file conv0 pMov wExists stats0).stats.successful = stats0.successful + 1 ∧
       (process_file conv0 pMov wExists stats0).stats.failed = stats0.failed) ∨
     ((process_file conv0 pMov wExists stats0).ok = false ∧
       (process_file conv0 pMov wExists stats0).stats.successful = stats0.successful ∧
       (process_file conv0 pMov wExists stats0).stats.failed = stats0.failed + 1)) :=
  ⟨((convert_success_iff_exit_zero conv0 "a" "b" "unknown" wExit0).1 (by decide) 0
      rfl).mpr rfl,
   (convert_success_iff_exit_zero conv0 "a" "b" "unknown" wLaunch).2.1 rfl,
   (convert_success_iff_exit_zero conv0 "a" "b" "unknown" wMoni).2.2.1 rfl,
   (convert_success_iff_exit_zero conv0 "a" "b" "unknown" wExit0).2.2.2 pMov wExists
     stats0⟩

/-- C9: the two counters are only ever incremented — each processed file adds
exactly one to `successful + failed` — so after any prefix of the batch
`successful + failed` equals the number of files processed so far (hence is at
most the number discovered), and equals it exactly at run completion. -/
theorem stats_counters_invariant :
    (∀ (c : VideoConverter) (p : InputPath) (w : FileWorld) (st : Stats),
      st.successful ≤ (process_file c p w st).stats.successful ∧
      st.failed ≤ (process_file c p w st).stats.failed ∧
      (process_file c p w st).stats.successful + (process_file c p w st).stats.failed =
        st.successful + st.failed + 1) ∧
    (∀ (c : VideoConverter) (jobs pre suf : List (InputPath × FileWorld)),
      jobs = pre ++ suf →
      (run_batch c pre stats0).successful + (run_batch c pre stats0).failed =
        pre.length ∧
      pre.length ≤ jobs.length) ∧
    (∀ (c : VideoConverter) (jobs : List (InputPath × FileWorld)),
      (run_batch c jobs stats0).successful + (run_batch c jobs stats0).failed =
        jobs.length) := by
  have hstep : ∀ (c : VideoConverter) (p : InputPath) (w : FileWorld) (st : Stats),
      st.successful ≤ (process_file c p w st).stats.successful ∧
      st.failed ≤ (process_file c p w st).stats.failed ∧
      (process_file c p w st).stats.successful + (process_file c p w st).stats.failed =
        st.successful + st.failed + 1 := by
    intro c p w st
    rcases process_file_cases c p w st with ⟨_, hs, hf⟩ | ⟨_, hs, hf⟩ <;>
      rw [hs, hf] <;> omega
  have htot : ∀ (c : VideoConverter) (jobs : List (InputPath × FileWorld)),
      (run_batch c jobs stats0).successful + (run_batch c jobs stats0).failed =
        jobs.length := by
    intro c jobs
    have h := run_batch_sum c jobs stats0
    simpa [stats0] using h
  refine ⟨hstep, fun c jobs pre suf hsplit => ⟨htot c pre, ?_⟩, htot⟩
  rw [hsplit, List.length_append]
  omega

/-- Witness for C9: a singleton batch ends with `successful + failed = 1`, and
its empty prefix has counter sum 0. -/
theorem stats_counters_invariant_witness :
    ((run_batch conv0 [] stats0).successful + (run_batch conv0 [] stats0).failed = 0 ∧
      List.length ([] : List (InputPath × FileWorld)) ≤
        List.length [(pMov, wExists)]) ∧
    (run_batch conv0 [(pMov, wExists)] stats0).successful +
      (run_batch conv0 [(pMov, wExists)] stats0).failed = 1 :=
  ⟨stats_counters_invariant.2.1 conv0 [(pMov, wExists)] [] [(pMov, wExists)] rfl,
   stats_counters_invariant.2.2 conv0 [(pMov, wExists)]⟩

/-- C10: a successful probe whose stream list has no video stream yields the
all-default record (duration 0, zero resolution, every string field the
`"unknown"` sentinel), which classifies as the Unknown profile, and without an
override LUT the command built for that profile carries the DLogM fallback LUT
as its `-vf` filter. -/
theorem no_video_stream_dlogm_fallback (dur : Rat) (streams : List StreamRecord)
    (c : VideoConverter) (i o : String)
    (h : streams.find? (fun s => s.codec_type == "video") = none)
    (hl : c.custom_lut_file = none) :
    get_video_info (ProbeResult.parsed dur streams) =
      Except.ok { duration := 0, color_space := "unknown",
                  color_primaries := "unknown", color_transfer := "unknown",
                  width := 0, height := 0, codec_name := "unknown" } ∧
    detect_color_profile { duration := 0, color_space := "unknown",
                           color_primaries := "unknown", color_transfer := "unknown",
                           width := 0, height := 0, codec_name := "unknown" } =
      "unknown" ∧
    (build_ffmpeg_command c i o "unknown")[6]? =
      some ("lut3d=\x27" ++ dlogm_lut ++ "\x27") := by
  refine ⟨?_, by decide, ?_⟩
  · simp [get_video_info, h]
  · simp only [build_ffmpeg_command, hl]
    rfl

/-- Witness for C10: an empty stream list. -/
theorem no_video_stream_dlogm_fallback_witness :
    get_video_info (ProbeResult.parsed 7 []) =
      Except.ok { duration := 0, color_space := "unknown",
                  color_primaries := "unknown", color_transfer := "unknown",
                  width := 0, height := 0, codec_name := "unknown" } ∧
    detect_color_profile { duration := 0, color_space := "unknown",
                           color_primaries := "unknown", color_transfer := "unknown",
                           width := 0, height := 0, codec_name := "unknown" } =
      "unknown" ∧
    (build_ffmpeg_command conv0 "./clip.mov" "./clip_REC709.mp4" "unknown")[6]? =
      some ("lut3d=\x27" ++ dlogm_lut ++ "\x27") :=
  no_video_stream_dlogm_fallback 7 [] conv0 "./clip.mov" "./clip_REC709.mp4" rfl rfl
